import Mathlib

/-!
Shallow embedding of the bot-detection core of the repository.

Two source files implement the core: the middleware file
src/server/middleware/antiBot.js (embedded in namespace AntiBot below) and an
unnamed sibling variant of the same module (embedded in namespace AntiBotV1).
Requests are modelled by the fixed set of header keys the code reads; times are
naturals (milliseconds); the numeric scores use Int and Rat, which model the
JavaScript arithmetic exactly on the values the code manipulates.
-/

/-- Timing constants, identical in both source files. -/
def ANALYSIS_WINDOW : Nat := 30 * 1000

/-- Retention window for behaviour patterns (5 minutes, in ms). -/
def PATTERN_MEMORY : Nat := 5 * 60 * 1000

/-- Period of the cache-cleanup sweeper (1 minute, in ms). -/
def CACHE_CLEANUP_INTERVAL : Nat := 60 * 1000

/-- Projection of the request header map to the keys the core reads.
A field is none when the header is absent. -/
structure Headers where
  userAgent : Option String
  accept : Option String
  acceptLanguage : Option String
  acceptEncoding : Option String
  connection : Option String
  upgradeInsecureRequests : Option String
  viewportWidth : Option String
  secChUaFullVersionList : Option String
  secChUaPlatformVersion : Option String
  secChUa : Option String
  secChUaPlatform : Option String
  secChUaMobile : Option String
  secFetchSite : Option String
  secFetchMode : Option String
  secFetchDest : Option String
  cacheControl : Option String
deriving DecidableEq

/-- The inbound-request descriptor: headers, path, method, remote address. -/
structure Request where
  headers : Headers
  path : String
  method : String
  ip : Option String
deriving DecidableEq

/-- JavaScript truthiness of an optional header value: undefined and the
empty string are falsy, every other string is truthy. -/
def jsTruthy (o : Option String) : Bool := o.getD "" != ""

/-- String containment on character lists: does the second list contain the
first as a contiguous substring (the semantics of String.prototype.includes). -/
def containsSub (needle : List Char) : List Char → Bool
  | [] => needle.isEmpty
  | c :: t => needle.isPrefixOf (c :: t) || containsSub needle t

/-- The suffix right after the first occurrence of p, when p occurs. -/
def afterFirst (p : List Char) : List Char → Option (List Char)
  | [] => if p.isEmpty then some [] else none
  | c :: t => if p.isPrefixOf (c :: t) then some ((c :: t).drop p.length) else afterFirst p t

/-- Does p occur followed immediately by at least one character satisfying
isV?  This is the test of a regular expression of the shape p[class]+ . -/
def occursFollowedBy (isV : Char → Bool) (p : List Char) : List Char → Bool
  | [] => false
  | c :: t =>
    (p.isPrefixOf (c :: t) &&
      (match (c :: t).drop p.length with
        | d :: _ => isV d
        | [] => false)) || occursFollowedBy isV p t

/-- Character class of the version regexes [\d.] . -/
def isVerChar (c : Char) : Bool := c.isDigit || c == '.'

/-- Character class of the version regexes [\d._] . -/
def isVerUChar (c : Char) : Bool := c.isDigit || c == '.' || c == '_'

/-- toLowerCase, character by character (ASCII, as the header values used). -/
def lowerChars (s : String) : List Char := s.toList.map Char.toLower

/-- Test of the regex (\d+\.)+\d+ : it succeeds exactly when some digit is
followed by a dot followed by a digit. -/
def hasDigitDotDigit : List Char → Bool
  | a :: b :: c :: t => (a.isDigit && b == '.' && c.isDigit) || hasDigitDotDigit (b :: c :: t)
  | _ => false

/-- Consecutive differences of a timestamp list, as in the interval loops of
analyzeTimingPatterns. -/
def intervalsOf : List Nat → List Int
  | a :: b :: t => ((b : Int) - (a : Int)) :: intervalsOf (b :: t)
  | _ => []

/-- Models the library digest crypto.createHash sha256 ... digest hex as a
pure function from the input string to a 64-character hex token.  Every claim
about the fingerprint depends only on this being a deterministic function of
its input, never on any property of the digest value itself, so the concrete
mixing function below stands in for the library hash. -/
def sha256Hex (s : String) : String :=
  let h := s.toList.foldl (fun a c => (a * 131 + c.toNat) % (2 ^ 256)) 7
  let ds := Nat.toDigits 16 h
  String.mk (List.replicate (64 - ds.length) '0' ++ ds)

-- Equality test for raised-or-returned results.
deriving instance DecidableEq for Except

namespace AntiBot

/-- Result of validateBrowserEnvironment: rubric score and validity flag. -/
structure EnvResult where
  valid : Bool
  score : Int
deriving DecidableEq

namespace BrowserVerification

/-- The ordered component list of generateFingerprint (middleware variant):
selected header values plus the remote address. -/
def componentList (req : Request) : List (Option String) :=
  [req.headers.userAgent,
   req.headers.accept,
   req.headers.acceptLanguage,
   req.headers.acceptEncoding,
   req.headers.connection,
   req.headers.upgradeInsecureRequests,
   req.headers.viewportWidth,
   req.headers.secChUaFullVersionList,
   req.headers.secChUaPlatformVersion,
   req.ip]

/-- generateFingerprint: keep the truthy components, join with the delimiter
and hash.  filter(Boolean) drops absent and empty components. -/
def generateFingerprint (req : Request) : String :=
  sha256Hex (String.intercalate ":|:" (((componentList req).filter jsTruthy).map (fun o => o.getD "")))

/-- calculateHeaderScore: fixed positive increments per present header. -/
def calculateHeaderScore (h : Headers) : Int :=
  (if jsTruthy h.userAgent then 20 else 0) +
  (if jsTruthy h.accept then 10 else 0) +
  (if jsTruthy h.acceptLanguage then 10 else 0) +
  (if jsTruthy h.acceptEncoding then 10 else 0) +
  (if jsTruthy h.secFetchSite then 5 else 0) +
  (if jsTruthy h.secFetchMode then 5 else 0) +
  (if jsTruthy h.secFetchDest then 5 else 0)

/-- The browser regex table of analyzeUserAgent: chrome, firefox, safari,
edg(e)?, opr, each name followed by /[\d.]+ .  The source adds 15 once when
some entry matches (Array.prototype.some stops at the first match). -/
def browserMatch (lowerUA : List Char) : Bool :=
  occursFollowedBy isVerChar "chrome/".toList lowerUA ||
  occursFollowedBy isVerChar "firefox/".toList lowerUA ||
  occursFollowedBy isVerChar "safari/".toList lowerUA ||
  occursFollowedBy isVerChar "edg/".toList lowerUA ||
  occursFollowedBy isVerChar "edge/".toList lowerUA ||
  occursFollowedBy isVerChar "opr/".toList lowerUA

/-- The OS regex table of analyzeUserAgent: windows nt, macintosh.*mac os x,
iphone os, android, linux.  The source adds 15 once when some entry matches. -/
def osMatch (lowerUA : List Char) : Bool :=
  occursFollowedBy isVerChar "windows nt ".toList lowerUA ||
  (match afterFirst "macintosh".toList lowerUA with
    | some rest => occursFollowedBy isVerUChar "mac os x ".toList rest
    | none => false) ||
  occursFollowedBy isVerUChar "iphone os ".toList lowerUA ||
  occursFollowedBy isVerChar "android ".toList lowerUA ||
  containsSub "linux".toList lowerUA

/-- analyzeUserAgent: -50 when the user agent is falsy, otherwise browser
match, OS match and version-number bonuses. -/
def analyzeUserAgent (ua : Option String) : Int :=
  if !jsTruthy ua then -50
  else
    let uaStr := ua.getD ""
    let lowerUA := lowerChars uaStr
    (if browserMatch lowerUA then 15 else 0) +
    (if osMatch lowerUA then 15 else 0) +
    (if hasDigitDotDigit uaStr.toList then 10 else 0)

/-- checkConsistency: platform hint versus user agent, mobile hint versus
mobile-indicating substrings. -/
def checkConsistency (h : Headers) : Int :=
  let ua := lowerChars (h.userAgent.getD "")
  let platformScore : Int :=
    if jsTruthy h.secChUaPlatform && jsTruthy h.userAgent then
      let platform := lowerChars (h.secChUaPlatform.getD "")
      (if containsSub "windows".toList platform && containsSub "windows".toList ua then 10 else 0) +
      (if containsSub "mac".toList platform && containsSub "macintosh".toList ua then 10 else 0) +
      (if containsSub "android".toList platform && containsSub "android".toList ua then 10 else 0) +
      (if containsSub "ios".toList platform && containsSub "iphone".toList ua then 10 else 0)
    else 0
  let mobileScore : Int :=
    if jsTruthy h.secChUaMobile then
      let isMobile := h.secChUaMobile.getD "" = "?1"
      let uaIndicatesMobile :=
        containsSub "mobile".toList ua || containsSub "android".toList ua ||
        containsSub "iphone".toList ua || containsSub "ipad".toList ua ||
        containsSub "ipod".toList ua
      if isMobile = (uaIndicatesMobile = true) then 10 else 0
    else 0
  platformScore + mobileScore

/-- The automation-indicator denylist of validateSpecialHeaders. -/
def botIndicators : List String :=
  ["selenium", "webdriver", "headless", "phantom",
   "puppeteer", "playwright", "cypress", "automation",
   "metamask", "bot", "crawler", "spider"]

/-- validateSpecialHeaders: -50 per denylist hit in the lowercased user agent,
-30 for a chromium client hint with no chrome token in the user agent. -/
def validateSpecialHeaders (h : Headers) : Int :=
  let userAgent := lowerChars (h.userAgent.getD "")
  let indScore := botIndicators.foldl
    (fun acc ind => if containsSub ind.toList userAgent then acc - 50 else acc) 0
  let uaScore : Int :=
    if jsTruthy h.secChUa then
      let ua := lowerChars (h.secChUa.getD "")
      if containsSub "\"chromium\"".toList ua && !containsSub "chrome".toList userAgent then -30
      else 0
    else 0
  indScore + uaScore

/-- validateBrowserEnvironment: the sum of the four rubric components, with
the validity flag at threshold 40. -/
def validateBrowserEnvironment (h : Headers) : EnvResult :=
  let score := calculateHeaderScore h + analyzeUserAgent h.userAgent +
    checkConsistency h + validateSpecialHeaders h
  ⟨score ≥ 40, score⟩

end BrowserVerification

namespace BehaviorAnalysis

/-- The relevant_headers projection stored with each pattern. -/
structure RelevantHeaders where
  encoding : Option String
  language : Option String
  cache : Option String
  connection : Option String
  platform : Option String
deriving DecidableEq

/-- A recorded request pattern. -/
structure Pattern where
  timestamp : Nat
  path : String
  method : String
  headers : RelevantHeaders
deriving DecidableEq

/-- The per-fingerprint profile held in behaviorCache. -/
structure ClientData where
  patterns : List Pattern
  lastSeen : Nat
  score : ℚ
  suspicious : Nat
deriving DecidableEq

/-- The record analyze returns to detectBot. -/
structure BehaviorResult where
  humanLike : Bool
  confidence : ℚ
  suspicious : Nat
deriving DecidableEq

/-- The record analyzeBehaviorPatterns produces (details flattened). -/
structure Analysis where
  confidence : ℚ
  suspicious : Nat
  timing : ℚ
  navigation : ℚ
  headers : ℚ
deriving DecidableEq

/-- The behaviorCache map, as an association list keyed by fingerprint. -/
abbrev Cache := List (String × ClientData)

/-- getRelevantHeaders. -/
def getRelevantHeaders (h : Headers) : RelevantHeaders :=
  ⟨h.acceptEncoding, h.acceptLanguage, h.cacheControl, h.connection, h.secChUaPlatform⟩

/-- The pattern pushed by analyze at time now. -/
def mkPattern (now : Nat) (req : Request) : Pattern :=
  ⟨now, req.path, req.method, getRelevantHeaders req.headers⟩

/-- analyzeTimingPatterns.  stdDev < 100 is tested as variance < 10000: both
sides are nonnegative and squaring is monotone, so the test is exact without
the square root. -/
def analyzeTimingPatterns (patterns : List Pattern) : ℚ :=
  let intervals := intervalsOf (patterns.map (fun p => p.timestamp))
  if intervals.length = 0 then 1
  else
    let n : ℚ := intervals.length
    let mean := (intervals.map (fun i => (i : ℚ))).sum / n
    let variance := (intervals.map (fun i => ((i : ℚ) - mean) ^ 2)).sum / n
    let isRegular := variance < 10000
    let hasTooFast := intervals.any (fun i => decide (i < 50))
    if isRegular ∧ hasTooFast then 0
    else if isRegular then 3 / 10
    else if hasTooFast then 1 / 2
    else 1

/-- Number of indices whose path equals both predecessors (the loop of
calculateRepetition). -/
def countTripleRepeats : List String → Nat
  | a :: b :: c :: t => (if a = b ∧ b = c then 1 else 0) + countTripleRepeats (b :: c :: t)
  | _ => 0

/-- calculateRepetition. -/
def calculateRepetition (paths : List String) : ℚ :=
  if paths.length < 3 then 0
  else min ((countTripleRepeats paths : ℚ) / ((paths.length - 2 : Nat) : ℚ)) 1

/-- The validFlows table of hasLogicalFlow; the first entry has one element. -/
def validFlows : List (List String) :=
  [["/"], ["/", "/check-ip"], ["/check-ip", "/loading"], ["/loading", "/review"], ["/review", "/complete"]]

/-- value.includes(arg) where value may be an absent array element: reading
includes of undefined raises a TypeError. -/
def jsIncludes : Option String → String → Except String Bool
  | none, _ => Except.error "TypeError: Cannot read properties of undefined (reading includes)"
  | some s, x => Except.ok (containsSub x.toList s.toList)

/-- The callback of the some-loop of hasLogicalFlow:
flow[0].includes(a) && flow[1].includes(b), with short-circuit. -/
def flowMatches (flow : List String) (a b : String) : Except String Bool :=
  match jsIncludes flow[0]? a with
  | Except.error e => Except.error e
  | Except.ok false => Except.ok false
  | Except.ok true => jsIncludes flow[1]? b

/-- validFlows.some(...) with JavaScript short-circuit evaluation. -/
def someFlowMatches (a b : String) : List (List String) → Except String Bool
  | [] => Except.ok false
  | flow :: rest =>
    match flowMatches flow a b with
    | Except.error e => Except.error e
    | Except.ok true => Except.ok true
    | Except.ok false => someFlowMatches a b rest

/-- The adjacent-pair loop of hasLogicalFlow. -/
def hasLogicalFlowGo : String → List String → Except String Bool
  | _, [] => Except.ok true
  | prev, p :: rest =>
    match someFlowMatches prev p validFlows with
    | Except.error e => Except.error e
    | Except.ok true => hasLogicalFlowGo p rest
    | Except.ok false => Except.ok false

/-- hasLogicalFlow. -/
def hasLogicalFlow : List String → Except String Bool
  | [] => Except.ok true
  | p :: rest => hasLogicalFlowGo p rest

/-- analyzeNavigationPatterns: repetition penalty then flow penalty. -/
def analyzeNavigationPatterns (patterns : List Pattern) : Except String ℚ :=
  let paths := patterns.map (fun p => p.path)
  let repetition := calculateRepetition paths
  match hasLogicalFlow paths with
  | Except.error e => Except.error e
  | Except.ok flowOk =>
    Except.ok (if flowOk then 1 * (1 - repetition) else 1 * (1 - repetition) * (7 / 10))

/-- calculateSuspiciousScore: one unit per factor below 0.3 . -/
def calculateSuspiciousScore (timing navigation headers : ℚ) : Nat :=
  (if timing < 3 / 10 then 1 else 0) +
  (if navigation < 3 / 10 then 1 else 0) +
  (if headers < 3 / 10 then 1 else 0)

/-- analyzeBehaviorPatterns.  Below two events it returns the neutral record.
Otherwise the source evaluates timing, then navigation (whose hasLogicalFlow
call can itself raise), then this.analyzeHeaderConsistency, a method the
class in this file never defines, so evaluation raises a TypeError. -/
def analyzeBehaviorPatterns (patterns : List Pattern) : Except String Analysis :=
  if patterns.length < 2 then
    Except.ok ⟨7 / 10, 0, 1, 1, 1⟩
  else
    let _timing := analyzeTimingPatterns patterns
    match analyzeNavigationPatterns patterns with
    | Except.error e => Except.error e
    | Except.ok _navigation =>
      Except.error "TypeError: this.analyzeHeaderConsistency is not a function"

/-- analyze.  The profile is fetched, the new pattern pushed and the window
filter applied; the source then calls analyzeBehaviorPatterns and next
this.calculateBehaviorScore, a method the class in this file never defines,
so evaluation raises a TypeError before behaviorCache.set runs. -/
def analyze (req : Request) (fingerprint : String) (now : Nat) (cache : Cache) :
    Except String BehaviorResult :=
  let clientData := (cache.lookup fingerprint).getD ⟨[], now, 0, 0⟩
  let patterns2 := (clientData.patterns ++ [mkPattern now req]).filter
    (fun p => decide (now - p.timestamp < PATTERN_MEMORY))
  match analyzeBehaviorPatterns patterns2 with
  | Except.error e => Except.error e
  | Except.ok _analysis =>
    Except.error "TypeError: this.calculateBehaviorScore is not a function"

end BehaviorAnalysis

/-- The verdict record of detectBot (diagnostic details payloads omitted). -/
structure Verdict where
  isBot : Bool
  confidence : ℚ
  reason : Option String
  score : Option Int
  fingerprint : Option String
deriving DecidableEq

/-- The decision steps of detectBot that follow behavioural analysis
(source lines 355-384): suspicious-behaviour exit, legitimate exit,
combined-factors default. -/
def decideAfterBehavior (browserScore : Int) (behavior : BehaviorAnalysis.BehaviorResult)
    (fingerprint : String) : Verdict :=
  if behavior.humanLike = false ∧ 1 < behavior.suspicious then
    ⟨true, 17 / 20, some "suspicious_behavior", none, none⟩
  else if browserScore ≥ 40 ∧ behavior.confidence ≥ 2 / 5 then
    ⟨false, behavior.confidence, none, none, some fingerprint⟩
  else
    ⟨true, 3 / 5, some "combined_factors", none, none⟩

/-- detectBot (middleware variant).  legit models membership of the request
object in the legitimateClients weak set; now models Date.now(). -/
def detectBot (req : Request) (legit : Bool) (now : Nat)
    (cache : BehaviorAnalysis.Cache) : Except String Verdict :=
  let fingerprint := BrowserVerification.generateFingerprint req
  if legit then Except.ok ⟨false, 1, none, none, none⟩
  else
    let browserCheck := BrowserVerification.validateBrowserEnvironment req.headers
    if browserCheck.score < 20 then
      Except.ok ⟨true, 19 / 20, some "invalid_browser_environment", some browserCheck.score, none⟩
    else
      match BehaviorAnalysis.analyze req fingerprint now cache with
      | Except.error e => Except.error e
      | Except.ok behavior => Except.ok (decideAfterBehavior browserCheck.score behavior fingerprint)

end AntiBot

namespace AntiBotV1

/-- The relevant_headers projection of the variant file (no platform field). -/
structure RelevantHeaders where
  encoding : Option String
  language : Option String
  cache : Option String
  connection : Option String
deriving DecidableEq

/-- A recorded request pattern. -/
structure Pattern where
  timestamp : Nat
  path : String
  method : String
  headers : RelevantHeaders
deriving DecidableEq

/-- The per-fingerprint profile held in behaviorCache. -/
structure Profile where
  patterns : List Pattern
  lastSeen : Nat
  score : ℚ
deriving DecidableEq

/-- Result of analyzeBehaviorPatterns.  Below two events the source returns
no details object; details is then none. -/
structure Analysis where
  humanLike : Bool
  confidence : ℚ
  details : Option (ℚ × ℚ × ℚ)
deriving DecidableEq

/-- The behaviorCache map, as an association list keyed by fingerprint.
A JavaScript Map holds at most one entry per key. -/
abbrev Store := List (String × Profile)

/-- Map.prototype.set: replace in place when the key exists, else append. -/
def setEntry (k : String) (v : Profile) : Store → Store
  | [] => [(k, v)]
  | e :: rest => if e.1 = k then (k, v) :: rest else e :: setEntry k v rest

/-- getRelevantHeaders. -/
def getRelevantHeaders (h : Headers) : RelevantHeaders :=
  ⟨h.acceptEncoding, h.acceptLanguage, h.cacheControl, h.connection⟩

/-- The pattern pushed by analyze at time now. -/
def mkPattern (now : Nat) (req : Request) : Pattern :=
  ⟨now, req.path, req.method, getRelevantHeaders req.headers⟩

/-- analyzeTimingPatterns: mean absolute deviation of the intervals,
scaled by 1000 and capped at 1. -/
def analyzeTimingPatterns (patterns : List Pattern) : ℚ :=
  let intervals := intervalsOf (patterns.map (fun p => p.timestamp))
  let n : ℚ := intervals.length
  let avgInterval := (intervals.map (fun i => (i : ℚ))).sum / n
  let variability := (intervals.map (fun i => |(i : ℚ) - avgInterval|)).sum / n
  min (variability / 1000) 1

/-- The validSequences regex table of hasNormalNavigationFlow.  The four
patterns are anchored at the start; the first two also at the end. -/
def matchesValidSequence (p : String) : Bool :=
  p == "/" || p == "/check-ip" || p.startsWith "/loading" || p.startsWith "/review"

/-- hasNormalNavigationFlow: at least 70 percent of paths match some valid
sequence (the some-loop increments once per path, at its first match). -/
def hasNormalNavigationFlow (paths : List String) : Bool :=
  ((paths.filter matchesValidSequence).length : ℚ) / (paths.length : ℚ) ≥ 7 / 10

/-- analyzeNavigationPatterns: uniform-path penalty then flow penalty. -/
def analyzeNavigationPatterns (patterns : List Pattern) : ℚ :=
  let flows := patterns.map (fun p => p.path)
  let uniquePaths := flows.dedup.length
  let score1 : ℚ := if uniquePaths = 1 ∧ 3 < patterns.length then 1 * (1 / 2) else 1
  if !hasNormalNavigationFlow flows then score1 * (7 / 10) else score1

/-- The consecutive-pair loop of analyzeHeaderConsistency: a 0.8 penalty per
language change and per encoding change. -/
def headerConsistencyGo : List RelevantHeaders → ℚ
  | a :: b :: rest =>
    (if a.language ≠ b.language then (8 : ℚ) / 10 else 1) *
    ((if a.encoding ≠ b.encoding then (8 : ℚ) / 10 else 1) * headerConsistencyGo (b :: rest))
  | _ => 1

/-- analyzeHeaderConsistency. -/
def analyzeHeaderConsistency (patterns : List Pattern) : ℚ :=
  headerConsistencyGo (patterns.map (fun p => p.headers))

/-- analyzeBehaviorPatterns: neutral 0.5 below two events, else the plain
average of the three factors, human-like at 0.7 . -/
def analyzeBehaviorPatterns (patterns : List Pattern) : Analysis :=
  if patterns.length < 2 then ⟨true, 1 / 2, none⟩
  else
    let timing := analyzeTimingPatterns patterns
    let navigation := analyzeNavigationPatterns patterns
    let headers := analyzeHeaderConsistency patterns
    let confidence := (timing + navigation + headers) / 3
    ⟨confidence ≥ 7 / 10, confidence, some (timing, navigation, headers)⟩

/-- calculateBehaviorScore. -/
def calculateBehaviorScore (analysis : Analysis) : ℚ := analysis.confidence * 100

/-- analyze: fetch or create the profile, push the pattern, apply the
retention filter, analyse, store the updated profile. -/
def analyze (req : Request) (fingerprint : String) (now : Nat) (store : Store) :
    Analysis × Store :=
  let clientData := (store.lookup fingerprint).getD ⟨[], now, 0⟩
  let patterns2 := (clientData.patterns ++ [mkPattern now req]).filter
    (fun p => decide (now - p.timestamp < PATTERN_MEMORY))
  let analysis := analyzeBehaviorPatterns patterns2
  (analysis, setEntry fingerprint ⟨patterns2, now, calculateBehaviorScore analysis⟩ store)

/-- One run of the setInterval cleanup: delete every profile whose lastSeen
is more than PATTERN_MEMORY in the past. -/
def sweep (now : Nat) (store : Store) : Store :=
  store.filter (fun e => !decide (PATTERN_MEMORY < now - e.2.lastSeen))

end AntiBotV1

/-- Header set with every field absent. -/
def noHeaders : Headers :=
  ⟨none, none, none, none, none, none, none, none, none, none, none, none, none, none, none, none⟩

/-- Header set holding only a plain user agent. -/
def mozillaHeaders : Headers :=
  ⟨some "mozilla", none, none, none, none, none, none, none, none, none, none, none, none, none, none, none⟩

/-- A request with a plain user agent: its environment score is 20, so
detectBot proceeds to behavioural analysis. -/
def mozillaReq : Request := ⟨mozillaHeaders, "/", "GET", none⟩

/-- A request with no headers at all. -/
def emptyRequest : Request := ⟨noHeaders, "/", "GET", none⟩

/-- Headers whose fingerprint components are fixed (for the fingerprint
determinism witness). -/
def c2headersA : Headers :=
  ⟨some "ua", some "text/html", some "en", some "gzip", some "keep-alive",
   none, none, none, none, none, none, none, none, none, none, none⟩

/-- Same fingerprint components as c2headersA, different cache-control, a
header the fingerprint never reads. -/
def c2headersB : Headers :=
  ⟨some "ua", some "text/html", some "en", some "gzip", some "keep-alive",
   none, none, none, none, none, none, none, none, none, none, some "no-cache"⟩

/-- First determinism-witness request. -/
def c2reqA : Request := ⟨c2headersA, "/loading", "GET", some "10.0.0.7"⟩

/-- Second determinism-witness request: identical selected components,
different path, method and non-selected header. -/
def c2reqB : Request := ⟨c2headersB, "/review", "POST", some "10.0.0.7"⟩

/-- First event of the two-event history for the behaviour-analysis claim. -/
def c3patA : AntiBot.BehaviorAnalysis.Pattern :=
  ⟨0, "/check-ip", "GET", ⟨none, none, none, none, none⟩⟩

/-- Second event of the two-event history. -/
def c3patB : AntiBot.BehaviorAnalysis.Pattern :=
  ⟨10000, "/check-ip", "GET", ⟨none, none, none, none, none⟩⟩

/-- Request used to build the sliding-window counterexample store. -/
def c4req1 : Request := ⟨noHeaders, "/check-ip", "GET", none⟩

/-- Store after recording c4req1 at time 0 and again at time 240000 under
the same fingerprint. -/
def c4store2 : AntiBotV1.Store :=
  (AntiBotV1.analyze c4req1 "fp" 240000 (AntiBotV1.analyze c4req1 "fp" 0 []).2).2

/-- Request for the record-pruning witness. -/
def c4wreq : Request := ⟨noHeaders, "/loading", "GET", none⟩

/-- The profile analyze 60 stores for c4wreq in an empty store. -/
def c4wprofile : AntiBotV1.Profile :=
  ⟨[AntiBotV1.mkPattern 60 c4wreq], 60,
   AntiBotV1.calculateBehaviorScore (AntiBotV1.analyzeBehaviorPatterns [AntiBotV1.mkPattern 60 c4wreq])⟩

/-- Two-profile store: profile a is fresh at time 360000, profile b idle
since 10000. -/
def c5store : AntiBotV1.Store := [("a", ⟨[], 350000, 0⟩), ("b", ⟨[], 10000, 0⟩)]

/-- Request for the eviction and invariant witnesses. -/
def c10req : Request := ⟨noHeaders, "/loading", "GET", none⟩

/-- The per-profile store invariant maintained by analyze: events ordered by
nondecreasing timestamp, all timestamps at most the clock value t. -/
def StoreInv (t : Nat) (store : AntiBotV1.Store) : Prop :=
  ∀ fp p, store.lookup fp = some p →
    p.patterns.Pairwise (fun a b => a.timestamp ≤ b.timestamp) ∧
    ∀ e ∈ p.patterns, e.timestamp ≤ t

/-! Helper lemmas about the association-list store. -/

theorem lookup_setEntry_self (k : String) (v : AntiBotV1.Profile) (s : AntiBotV1.Store) :
    (AntiBotV1.setEntry k v s).lookup k = some v := by
  induction s with
  | nil => simp [AntiBotV1.setEntry, List.lookup]
  | cons e rest ih =>
    by_cases h : e.1 = k
    · simp [AntiBotV1.setEntry, h, List.lookup]
    · have hb : (k == e.1) = false := beq_eq_false_iff_ne.mpr (Ne.symm h)
      simp [AntiBotV1.setEntry, h, List.lookup, hb, ih]

theorem lookup_setEntry_ne (k k' : String) (v : AntiBotV1.Profile) (s : AntiBotV1.Store)
    (hne : k' ≠ k) : (AntiBotV1.setEntry k v s).lookup k' = s.lookup k' := by
  have hb : (k' == k) = false := beq_eq_false_iff_ne.mpr hne
  induction s with
  | nil => simp [AntiBotV1.setEntry, List.lookup, hb]
  | cons e rest ih =>
    by_cases h : e.1 = k
    · subst h
      simp [AntiBotV1.setEntry, List.lookup, hb]
    · simp only [AntiBotV1.setEntry, h, if_neg]
      by_cases hk : k' = e.1
      · have hbk : (k' == e.1) = true := beq_iff_eq.mpr hk
        simp [List.lookup, hbk]
      · have hbk : (k' == e.1) = false := beq_eq_false_iff_ne.mpr hk
        simp [List.lookup, hbk, ih]

theorem lookup_eq_none_of_not_mem_keys (k : String) (l : AntiBotV1.Store)
    (h : k ∉ l.map Prod.fst) : l.lookup k = none := by
  induction l with
  | nil => simp [List.lookup]
  | cons e rest ih =>
    simp only [List.map_cons, List.mem_cons] at h
    push_neg at h
    have hb : (k == e.1) = false := beq_eq_false_iff_ne.mpr h.1
    simp [List.lookup, hb, ih h.2]

theorem lookup_filter_eq_none (k : String) (q : String × AntiBotV1.Profile → Bool)
    (l : AntiBotV1.Store) (h : l.lookup k = none) : (l.filter q).lookup k = none := by
  induction l with
  | nil => simp [List.lookup]
  | cons e rest ih =>
    by_cases hk : k = e.1
    · have hbk : (k == e.1) = true := beq_iff_eq.mpr hk
      simp [List.lookup, hbk] at h
    · have hbk : (k == e.1) = false := beq_eq_false_iff_ne.mpr hk
      simp only [List.lookup, hbk] at h
      by_cases hq : q e
      · simp only [List.filter_cons, hq, if_pos, List.lookup, hbk]
        exact ih h
      · simp only [List.filter_cons, hq, if_neg, Bool.false_eq_true]
        exact ih h

/-- StoreInv holds of the empty store at every clock value. -/
theorem storeInv_nil (t : Nat) : StoreInv t [] := by
  intro fp p hp
  simp [List.lookup] at hp

/-! Claim theorems. -/

/-- C1: the claim states that detectBot and everything it calls return a value
rather than raising a fatal error for every well-formed request.  The
middleware file contradicts this: its BehaviorAnalysis class never defines
calculateBehaviorScore (nor analyzeHeaderConsistency), so analyze raises a
TypeError on every request that reaches behavioural analysis.  Here a request
carrying only the user agent mozilla scores 20, passes the environment gate,
and detectBot raises. -/
theorem c1_detectBot_raises_type_error :
    AntiBot.detectBot mozillaReq false 1000 [] =
      Except.error "TypeError: this.calculateBehaviorScore is not a function" := by
  decide

/-- C2: fingerprint derivation is deterministic.  generateFingerprint reads
no mutable state in the source, so it is embedded as a pure function of the
request; the first conjunct says two requests with identical selected
components (the ten componentList entries, remote address included) get the
identical token whatever their other fields, and the second that the request
with every component absent still yields the token of the empty string, since
filter(Boolean) merely skips absent components. -/
theorem c2_generateFingerprint_deterministic :
    (∀ r1 r2 : Request,
        AntiBot.BrowserVerification.componentList r1 =
          AntiBot.BrowserVerification.componentList r2 →
        AntiBot.BrowserVerification.generateFingerprint r1 =
          AntiBot.BrowserVerification.generateFingerprint r2)
    ∧ AntiBot.BrowserVerification.generateFingerprint emptyRequest = sha256Hex "" := by
  constructor
  · intro r1 r2 h
    unfold AntiBot.BrowserVerification.generateFingerprint
    rw [h]
  · rfl

/-- C2 witness: two concrete requests agreeing on all selected components but
differing in path, method and the cache-control header get the same token. -/
theorem c2_generateFingerprint_deterministic_witness :
    AntiBot.BrowserVerification.generateFingerprint c2reqA =
      AntiBot.BrowserVerification.generateFingerprint c2reqB :=
  c2_generateFingerprint_deterministic.1 c2reqA c2reqB (by decide)

/-- C3: the claim states the confidence analyzeBehaviorPatterns returns lies
in [0,1] for every history.  In the middleware file the function instead
raises a TypeError on any history of two or more events, because the class
defines no analyzeHeaderConsistency method: here a two-event history. -/
theorem c3_analyzeBehaviorPatterns_raises_on_two_events :
    AntiBot.BehaviorAnalysis.analyzeBehaviorPatterns [c3patA, c3patB] =
      Except.error "TypeError: this.analyzeHeaderConsistency is not a function" := by
  decide

/-- C4 counterexample: the claim also asserts that after any sweep call at
now no event older than the retention window survives.  False: record a
profile at times 0 and 240000, sweep at 360000; the profile is retained (its
lastSeen is 120000 ms old) and still holds the event of timestamp 0, which is
360000 ms old, beyond the 300000 ms window. -/
theorem c4_sweep_retains_expired_event :
    ((AntiBotV1.sweep 360000 c4store2).lookup "fp").map
        (fun p => p.patterns.map (fun e => e.timestamp)) = some [0, 240000]
    ∧ PATTERN_MEMORY < 360000 - 0 := by
  decide

/-- C4 amended: after any record (analyze) call at now, the stored profile
holds no event older than the retention window relative to now; a sweep call
only evicts whole profiles and returns entries of the original store
unchanged, so it never prunes events inside retained profiles. -/
theorem c4_record_prunes_and_sweep_leaves_profiles_intact :
    (∀ (req : Request) (fp : String) (now : Nat) (store : AntiBotV1.Store)
        (p : AntiBotV1.Profile),
        (AntiBotV1.analyze req fp now store).2.lookup fp = some p →
        ∀ e ∈ p.patterns, now - e.timestamp < PATTERN_MEMORY)
    ∧ (∀ (now : Nat) (store : AntiBotV1.Store) (e : String × AntiBotV1.Profile),
        e ∈ AntiBotV1.sweep now store → e ∈ store) := by
  constructor
  · intro req fp now store p hlook e he
    unfold AntiBotV1.analyze at hlook
    rw [lookup_setEntry_self] at hlook
    cases hlook
    have := List.of_mem_filter he
    simpa using this
  · intro now store e he
    exact List.mem_of_mem_filter he

/-- C4 amended witness: recording into the empty store at time 60 leaves the
freshly pushed event, which is 0 ms old, well inside the window. -/
theorem c4_record_prunes_witness :
    60 - (AntiBotV1.mkPattern 60 c4wreq).timestamp < PATTERN_MEMORY :=
  c4_record_prunes_and_sweep_leaves_profiles_intact.1 c4wreq "f" 60 [] c4wprofile
    (by rfl) (AntiBotV1.mkPattern 60 c4wreq) (by decide)

/-- C5: eviction liveness.  Any profile whose lastSeen is more than the
retention window before now is gone after one sweep at now, whatever else the
store holds (the store has one entry per key, as a JavaScript Map does). -/
theorem c5_sweep_evicts_idle_profile
    (now : Nat) (store : AntiBotV1.Store) (fp : String) (p : AntiBotV1.Profile)
    (hnd : (store.map Prod.fst).Nodup)
    (hlook : store.lookup fp = some p)
    (hstale : PATTERN_MEMORY < now - p.lastSeen) :
    (AntiBotV1.sweep now store).lookup fp = none := by
  induction store with
  | nil => simp [List.lookup] at hlook
  | cons e rest ih =>
    simp only [List.map_cons, List.nodup_cons] at hnd
    by_cases hk : fp = e.1
    · have hbk : (fp == e.1) = true := beq_iff_eq.mpr hk
      simp only [List.lookup, hbk] at hlook
      cases hlook
      have hdrop : (!decide (PATTERN_MEMORY < now - e.2.lastSeen)) = false := by
        simp [hstale]
      have hnone : List.lookup fp rest = none := by
        apply lookup_eq_none_of_not_mem_keys
        rw [hk]
        exact hnd.1
      unfold AntiBotV1.sweep
      simp only [List.filter_cons, hdrop, Bool.false_eq_true, if_neg]
      exact lookup_filter_eq_none fp _ rest hnone
    · have hbk : (fp == e.1) = false := beq_eq_false_iff_ne.mpr hk
      simp only [List.lookup, hbk] at hlook
      have htail := ih hnd.2 hlook
      unfold AntiBotV1.sweep at htail ⊢
      by_cases hq : (!decide (PATTERN_MEMORY < now - e.2.lastSeen)) = true
      · simp only [List.filter_cons, hq, if_pos, List.lookup, hbk]
        exact htail
      · simp only [List.filter_cons, hq, if_neg, Bool.false_eq_true]
        exact htail

/-- C5 witness: in a two-profile store, the profile idle since 10000 is
removed by a sweep at 360000. -/
theorem c5_sweep_evicts_idle_profile_witness :
    (AntiBotV1.sweep 360000 c5store).lookup "b" = none :=
  c5_sweep_evicts_idle_profile 360000 c5store "b" ⟨[], 10000, 0⟩
    (by decide) (by decide) (by decide)

/-- C6: whenever the environment score is below the hard-fail threshold 20
and the legitimacy fast path is not set, detectBot returns the bot verdict
with confidence 0.95 and reason invalid_browser_environment.  The conclusion
holds for every clock value and every behaviour cache, which expresses that
behavioural analysis is never consulted on this path. -/
theorem c6_detectBot_environment_hardfail
    (req : Request) (now : Nat) (cache : AntiBot.BehaviorAnalysis.Cache)
    (h : (AntiBot.BrowserVerification.validateBrowserEnvironment req.headers).score < 20) :
    AntiBot.detectBot req false now cache =
      Except.ok ⟨true, 19 / 20, some "invalid_browser_environment",
        some (AntiBot.BrowserVerification.validateBrowserEnvironment req.headers).score, none⟩ := by
  unfold AntiBot.detectBot
  simp [h]

/-- C6 witness: the request with no headers scores -50 and is hard-failed. -/
theorem c6_detectBot_environment_hardfail_witness :
    AntiBot.detectBot emptyRequest false 0 [] =
      Except.ok ⟨true, 19 / 20, some "invalid_browser_environment", some (-50), none⟩ :=
  (c6_detectBot_environment_hardfail emptyRequest 0 [] (by decide)).trans (by rfl)

/-- C7: the suspicious-behaviour verdict demands both conditions.  First
conjunct: the decision steps following behavioural analysis give reason
suspicious_behavior exactly when the behaviour is not human-like and the
suspicion count exceeds 1.  Second: under those conditions the verdict is
bot with confidence 0.85.  Third: the suspicion count exceeds 1 only when at
least two of the three factors are below 0.3, so one low factor alone never
produces this verdict. -/
theorem c7_suspicious_behavior_requires_both_factors :
    (∀ (score : Int) (fp : String) (b : AntiBot.BehaviorAnalysis.BehaviorResult),
        (AntiBot.decideAfterBehavior score b fp).reason = some "suspicious_behavior" ↔
          (b.humanLike = false ∧ 1 < b.suspicious))
    ∧ (∀ (score : Int) (fp : String) (b : AntiBot.BehaviorAnalysis.BehaviorResult),
        b.humanLike = false → 1 < b.suspicious →
        AntiBot.decideAfterBehavior score b fp =
          ⟨true, 17 / 20, some "suspicious_behavior", none, none⟩)
    ∧ (∀ t n c : ℚ,
        1 < AntiBot.BehaviorAnalysis.calculateSuspiciousScore t n c →
        ((t < 3 / 10 ∧ n < 3 / 10) ∨ (t < 3 / 10 ∧ c < 3 / 10) ∨ (n < 3 / 10 ∧ c < 3 / 10))) := by
  refine ⟨?_, ?_, ?_⟩
  · intro score fp b
    unfold AntiBot.decideAfterBehavior
    split_ifs with h1 h2 <;> simp [h1]
  · intro score fp b hb hs
    unfold AntiBot.decideAfterBehavior
    rw [if_pos ⟨hb, hs⟩]
  · intro t n c h
    unfold AntiBot.BehaviorAnalysis.calculateSuspiciousScore at h
    split_ifs at h <;> first | omega | tauto

/-- C7 witness: a non-human-like behaviour with suspicion count 2 yields the
0.85 suspicious-behaviour verdict. -/
theorem c7_suspicious_behavior_requires_both_factors_witness :
    AntiBot.decideAfterBehavior 50 ⟨false, 1 / 5, 2⟩ "x" =
      ⟨true, 17 / 20, some "suspicious_behavior", none, none⟩ :=
  c7_suspicious_behavior_requires_both_factors.2.1 50 "x" ⟨false, 1 / 5, 2⟩ rfl (by decide)

/-! Bounds of the environment-score components. -/

theorem calculateHeaderScore_bounds (h : Headers) :
    0 ≤ AntiBot.BrowserVerification.calculateHeaderScore h ∧
    AntiBot.BrowserVerification.calculateHeaderScore h ≤ 65 := by
  unfold AntiBot.BrowserVerification.calculateHeaderScore
  split_ifs <;> omega

theorem analyzeUserAgent_bounds (ua : Option String) :
    -50 ≤ AntiBot.BrowserVerification.analyzeUserAgent ua ∧
    AntiBot.BrowserVerification.analyzeUserAgent ua ≤ 40 := by
  simp only [AntiBot.BrowserVerification.analyzeUserAgent]
  split_ifs <;> omega

theorem checkConsistency_bounds (h : Headers) :
    0 ≤ AntiBot.BrowserVerification.checkConsistency h ∧
    AntiBot.BrowserVerification.checkConsistency h ≤ 50 := by
  simp only [AntiBot.BrowserVerification.checkConsistency]
  split_ifs <;> omega

theorem foldl_penalty_le (ua : List Char) (l : List String) (acc : Int) :
    l.foldl (fun a ind => if containsSub ind.toList ua then a - 50 else a) acc ≤ acc := by
  induction l generalizing acc with
  | nil => simp
  | cons x rest ih =>
    simp only [List.foldl_cons]
    by_cases hx : containsSub x.toList ua
    · rw [if_pos hx]
      have := ih (acc - 50)
      omega
    · rw [if_neg hx]
      exact ih acc

theorem foldl_penalty_ge (ua : List Char) (l : List String) (acc : Int) :
    acc - 50 * l.length ≤
      l.foldl (fun a ind => if containsSub ind.toList ua then a - 50 else a) acc := by
  induction l generalizing acc with
  | nil => simp
  | cons x rest ih =>
    simp only [List.foldl_cons, List.length_cons]
    by_cases hx : containsSub x.toList ua
    · rw [if_pos hx]
      have := ih (acc - 50)
      push_cast at *
      omega
    · rw [if_neg hx]
      have := ih acc
      push_cast at *
      omega

theorem validateSpecialHeaders_bounds (h : Headers) :
    -630 ≤ AntiBot.BrowserVerification.validateSpecialHeaders h ∧
    AntiBot.BrowserVerification.validateSpecialHeaders h ≤ 0 := by
  simp only [AntiBot.BrowserVerification.validateSpecialHeaders]
  have h1 := foldl_penalty_le (lowerChars (h.userAgent.getD ""))
    AntiBot.BrowserVerification.botIndicators 0
  have h2 := foldl_penalty_ge (lowerChars (h.userAgent.getD ""))
    AntiBot.BrowserVerification.botIndicators 0
  have hlen : (AntiBot.BrowserVerification.botIndicators.length : Int) = 12 := by rfl
  rw [hlen] at h2
  split_ifs <;> omega

/-- C8 counterexample: the claim puts every environment score in [0, 100];
the request with no headers scores -50. -/
theorem c8_env_score_outside_0_100 :
    ¬(0 ≤ (AntiBot.BrowserVerification.validateBrowserEnvironment noHeaders).score ∧
      (AntiBot.BrowserVerification.validateBrowserEnvironment noHeaders).score ≤ 100) := by
  decide

/-- C8 amended: the environment score is the unclamped sum of the four rubric
components and lies in [-680, 155]; it is not confined to [0, 100] (with no
headers it is -50, and a header set maximising every component exceeds 100). -/
theorem c8_env_score_bounds (h : Headers) :
    -680 ≤ (AntiBot.BrowserVerification.validateBrowserEnvironment h).score ∧
    (AntiBot.BrowserVerification.validateBrowserEnvironment h).score ≤ 155 := by
  have h1 := calculateHeaderScore_bounds h
  have h2 := analyzeUserAgent_bounds h.userAgent
  have h3 := checkConsistency_bounds h
  have h4 := validateSpecialHeaders_bounds h
  unfold AntiBot.BrowserVerification.validateBrowserEnvironment
  dsimp only
  omega

/-- C9: monotonicity of the suspicion count.  If every factor that is low
(below 0.3) in the first triple is also low in the second, the count for the
first triple is at most the count for the second. -/
theorem c9_suspicion_count_monotone
    (t1 n1 c1 t2 n2 c2 : ℚ)
    (ht : t1 < 3 / 10 → t2 < 3 / 10) (hn : n1 < 3 / 10 → n2 < 3 / 10)
    (hc : c1 < 3 / 10 → c2 < 3 / 10) :
    AntiBot.BehaviorAnalysis.calculateSuspiciousScore t1 n1 c1 ≤
      AntiBot.BehaviorAnalysis.calculateSuspiciousScore t2 n2 c2 := by
  unfold AntiBot.BehaviorAnalysis.calculateSuspiciousScore
  split_ifs <;> first | omega | tauto

/-- C9 witness: with lows cut at 0.3, the triple (1, 0, 1) has its low set
contained in that of (0, 0, 1), and the counts are 1 and 2. -/
theorem c9_suspicion_count_monotone_witness :
    AntiBot.BehaviorAnalysis.calculateSuspiciousScore 1 0 1 ≤
      AntiBot.BehaviorAnalysis.calculateSuspiciousScore 0 0 1 :=
  c9_suspicion_count_monotone 1 0 1 0 0 1 (by norm_num) (fun h => h) (by norm_num)

/-- C10: the implicit store invariant of analyze.  From any store satisfying
the invariant at clock t0, an analyze call at now ≥ t0 stores under the
fingerprint a profile whose lastSeen is now, whose event list ends exactly
with the pattern just recorded (so lazy pruning never removes the most
recent event), and whose events are ordered by nondecreasing timestamp; the
whole store again satisfies the invariant at now, so the statement extends to
every sequence of analyze calls with nondecreasing clock values by induction. -/
theorem c10_analyze_preserves_profile_invariant
    (req : Request) (fp : String) (t0 now : Nat) (store : AntiBotV1.Store)
    (hinv : StoreInv t0 store) (hle : t0 ≤ now) :
    ∃ p, (AntiBotV1.analyze req fp now store).2.lookup fp = some p ∧
      p.lastSeen = now ∧
      (∃ pre, p.patterns = pre ++ [AntiBotV1.mkPattern now req]) ∧
      p.patterns.Pairwise (fun a b => a.timestamp ≤ b.timestamp) ∧
      StoreInv now (AntiBotV1.analyze req fp now store).2 := by
  have hbase :
      ((store.lookup fp).getD ⟨[], now, 0⟩).patterns.Pairwise
        (fun a b => a.timestamp ≤ b.timestamp) ∧
      ∀ e ∈ ((store.lookup fp).getD ⟨[], now, 0⟩).patterns, e.timestamp ≤ t0 := by
    cases hl : store.lookup fp with
    | none => simp
    | some q => simpa using hinv fp q hl
  have hkeep : (fun p => decide (now - p.timestamp < PATTERN_MEMORY))
      (AntiBotV1.mkPattern now req) = true := by
    simp [AntiBotV1.mkPattern, PATTERN_MEMORY]
  have hpair1 :
      (((store.lookup fp).getD ⟨[], now, 0⟩).patterns ++
        [AntiBotV1.mkPattern now req]).Pairwise
        (fun a b => a.timestamp ≤ b.timestamp) := by
    refine List.pairwise_append.mpr ⟨hbase.1, List.pairwise_singleton _ _, ?_⟩
    intro a ha b hb
    rw [List.mem_singleton] at hb
    subst hb
    exact le_trans (hbase.2 a ha) hle
  have hpair2 : (List.filter (fun p => decide (now - p.timestamp < PATTERN_MEMORY))
      (((store.lookup fp).getD ⟨[], now, 0⟩).patterns ++
        [AntiBotV1.mkPattern now req])).Pairwise
      (fun a b => a.timestamp ≤ b.timestamp) :=
    List.Pairwise.sublist (List.filter_sublist _) hpair1
  simp only [AntiBotV1.analyze]
  refine ⟨_, lookup_setEntry_self fp _ store, rfl, ?_, hpair2, ?_⟩
  · refine ⟨(((store.lookup fp).getD ⟨[], now, 0⟩).patterns).filter
      (fun p => decide (now - p.timestamp < PATTERN_MEMORY)), ?_⟩
    rw [List.filter_append]
    simp [hkeep]
  · intro fp' p' hp'
    by_cases hfp : fp' = fp
    · subst hfp
      rw [lookup_setEntry_self] at hp'
      cases hp'
      refine ⟨hpair2, ?_⟩
      intro e he
      have he1 := List.mem_of_mem_filter he
      rcases List.mem_append.mp he1 with hml | hmr
      · exact le_trans (hbase.2 e hml) hle
      · rw [List.mem_singleton] at hmr
        subst hmr
        exact le_refl now
    · rw [lookup_setEntry_ne fp fp' _ store hfp] at hp'
      have hq := hinv fp' p' hp'
      exact ⟨hq.1, fun e he => le_trans (hq.2 e he) hle⟩

/-- C10 witness: one analyze call at time 5 on the empty store. -/
theorem c10_analyze_preserves_profile_invariant_witness :
    ∃ p, (AntiBotV1.analyze c10req "f" 5 []).2.lookup "f" = some p ∧
      p.lastSeen = 5 ∧
      (∃ pre, p.patterns = pre ++ [AntiBotV1.mkPattern 5 c10req]) ∧
      p.patterns.Pairwise (fun a b => a.timestamp ≤ b.timestamp) ∧
      StoreInv 5 (AntiBotV1.analyze c10req "f" 5 []).2 :=
  c10_analyze_preserves_profile_invariant c10req "f" 0 5 [] (storeInv_nil 0) (by omega)
